import Mathlib

/-!
Verification development for the bidding-system relevance pipeline
(`src/processors/data_processor.py`, `src/main.py`).

Modelling conventions:
* Python strings are `List Char`.  `str.lower()` is modelled by the
  ASCII case map `Char.toLower` (Japanese characters are unaffected by
  either); `str.strip()` drops `Char.isWhitespace` characters from both
  ends; slicing `[:n]` is `List.take n`.
* Python's regex class `\w` (Unicode word characters) is modelled as:
  ASCII alphanumerics, underscore, and every non-ASCII character outside
  the common CJK-symbol and full-width punctuation blocks, which covers
  the Japanese text the pipeline handles.
* Calendar dates are day numbers (`Int`); `(d1 - d2).days` is `d1 - d2`.
  A date-typed field carries one of three states, mirroring what the
  Python code distinguishes: absent/falsy (`None` or `''`), an
  unparsable non-empty string (every `strptime` call on it raises), or a
  parsed date.
* Python machine integers are unbounded, so scores and budgets are `Int`
  with no overflow concerns.
-/

/-- One of the three states a date-valued entry field can be in:
absent/falsy, present but unparsable, or a concrete day number. -/
inductive PyDate where
  | missing : PyDate
  | invalid : PyDate
  | valid : Int → PyDate
deriving DecidableEq, Repr

/-- The entry record flowing through the pipeline (a Python dict with the
keys used by `BidDataProcessor`; `.get(key, '')` defaults are the empty
string, modelled by `[]`). -/
structure Entry where
  title : List Char
  description : List Char
  organization : List Char
  region : List Char
  source_url : List Char
  source_type : List Char
  budget_amount : Option Int
  published_date : PyDate
  deadline_date : PyDate
  relevance_score : Int
  keywords_matched : List (List Char)
deriving DecidableEq, Repr

/-- An entry with every field at its Python falsy default. -/
def Entry.empty : Entry :=
  { title := [], description := [], organization := [], region := []
    source_url := [], source_type := [], budget_amount := none
    published_date := .missing, deadline_date := .missing
    relevance_score := 0, keywords_matched := [] }

/-- The keyword configuration `BidDataProcessor.__init__` reads
(`settings.target_keywords`, `settings.exclude_keywords`). -/
structure Config where
  target_keywords : List (List Char)
  exclude_keywords : List (List Char)

/-- Model of `str.lower()` (ASCII case map; see module conventions). -/
def pyLower (s : List Char) : List Char := s.map Char.toLower

/-- Model of `str.strip()`: whitespace removed from both ends. -/
def pyStrip (s : List Char) : List Char :=
  ((s.dropWhile Char.isWhitespace).reverse.dropWhile Char.isWhitespace).reverse

/-- Python's `needle in hay` substring test (`''` is contained in
everything, matching Python). -/
def containsSub (needle : List Char) (hay : List Char) : Bool :=
  match hay with
  | [] => needle.isPrefixOf ([] : List Char)
  | _ :: rest => needle.isPrefixOf hay || containsSub needle rest

/-- The processor's `__init__` lower-cases the configured target keywords. -/
def Config.targetLower (cfg : Config) : List (List Char) :=
  cfg.target_keywords.map pyLower

/-- The processor's `__init__` lower-cases the configured exclude keywords. -/
def Config.excludeLower (cfg : Config) : List (List Char) :=
  cfg.exclude_keywords.map pyLower

/-- The string `f"{title} {description}"` built from the lower-cased
title and description, used by `_passes_filters`,
`_calculate_relevance_score` and `_get_matched_keywords`. -/
def filterText (e : Entry) : List Char :=
  pyLower e.title ++ ' ' :: pyLower e.description

/-- Model of `BidDataProcessor._passes_filters`: reject when any exclude keyword
occurs in the combined text, otherwise accept when some target keyword
occurs in it. -/
def passes_filters (cfg : Config) (e : Entry) : Bool :=
  (cfg.excludeLower.all fun kw => !containsSub kw (filterText e)) &&
  (cfg.targetLower.any fun kw => containsSub kw (filterText e))

/-- Keyword portion of `_calculate_relevance_score`: +30 per configured
keyword occurring in the title, +10 per keyword occurring only in the
combined text. -/
def keywordScore (cfg : Config) (e : Entry) : Int :=
  cfg.targetLower.foldl
    (fun s kw =>
      if containsSub kw (filterText e) then
        if containsSub kw (pyLower e.title) then s + 30 else s + 10
      else s) 0

/-- Budget portion of `_calculate_relevance_score` (`if budget:` is
Python truthiness: `None` and `0` score nothing). -/
def budgetScore (e : Entry) : Int :=
  match e.budget_amount with
  | none => 0
  | some b =>
    if b ≠ 0 then
      if 10000000 ≤ b then 20
      else if 5000000 ≤ b then 15
      else if 1000000 ≤ b then 10
      else 0
    else 0

/-- The capital-region markers of `_calculate_relevance_score`. -/
def nearRegions : List (List Char) :=
  ["東京".toList, "神奈川".toList, "千葉".toList, "埼玉".toList]

/-- The secondary-region markers of `_calculate_relevance_score`. -/
def secondaryRegions : List (List Char) :=
  ["大阪".toList, "京都".toList, "兵庫".toList]

/-- Region portion of `_calculate_relevance_score`. -/
def regionScore (e : Entry) : Int :=
  if nearRegions.any (fun p => containsSub p (pyLower e.region)) then 15
  else if secondaryRegions.any (fun p => containsSub p (pyLower e.region)) then 10
  else 0

/-- The municipal markers of `_calculate_relevance_score`. -/
def municipalMarkers : List (List Char) :=
  ["市".toList, "区".toList, "町".toList, "村".toList]

/-- Organization portion of `_calculate_relevance_score`. -/
def orgScore (e : Entry) : Int :=
  if municipalMarkers.any (fun m => containsSub m (pyLower e.organization)) then 5
  else 0

/-- Deadline portion of `_calculate_relevance_score`: a falsy or
unparsable deadline contributes nothing (the `except: pass`), otherwise
days until the deadline are tiered at 14 and 7. -/
def deadlineScore (today : Int) (e : Entry) : Int :=
  match e.deadline_date with
  | .missing => 0
  | .invalid => 0
  | .valid d =>
    if 14 ≤ d - today then 10
    else if 7 ≤ d - today then 5
    else 0

/-- Model of `BidDataProcessor._calculate_relevance_score`: the additive terms,
clamped to at most 100. -/
def calculate_relevance_score (cfg : Config) (today : Int) (e : Entry) : Int :=
  min (keywordScore cfg e + budgetScore e + regionScore e + orgScore e +
    deadlineScore today e) 100

/-- Model of `BidDataProcessor._get_matched_keywords` (the list that is then JSON
serialized): configured keywords occurring in the combined text, in
configuration order. -/
def get_matched_keywords (cfg : Config) (e : Entry) : List (List Char) :=
  cfg.targetLower.filter fun kw => containsSub kw (filterText e)

/-- Python regex `\w` (Unicode word characters), modelled as: ASCII
alphanumerics, underscore, and every non-ASCII character outside the
CJK-symbol and full-width punctuation blocks (so kana, kanji and
full-width alphanumerics are word characters while `（`, `）`, `、` and
the like are not, as in Python). -/
def isWordChar (c : Char) : Bool :=
  c.isAlphanum || c == '_' ||
  (0x80 ≤ c.toNat &&
    !((0x3000 ≤ c.toNat && c.toNat ≤ 0x303F) ||
      (0xFF01 ≤ c.toNat && c.toNat ≤ 0xFF0F) ||
      (0xFF1A ≤ c.toNat && c.toNat ≤ 0xFF20) ||
      (0xFF3B ≤ c.toNat && c.toNat ≤ 0xFF40) ||
      (0xFF5B ≤ c.toNat && c.toNat ≤ 0xFF65)))

/-- Model of `re.findall(r'\w+', text)`: maximal runs of word characters, with an
accumulator for the run currently being read (stored reversed). -/
def tokensAux : List Char → List Char → List (List Char)
  | [], cur => if cur.isEmpty then [] else [cur.reverse]
  | c :: rest, cur =>
    if isWordChar c then tokensAux rest (c :: cur)
    else if cur.isEmpty then tokensAux rest []
    else cur.reverse :: tokensAux rest []

/-- Model of `set(re.findall(r'\w+', text.lower()))`. -/
def wordSet (s : List Char) : Finset (List Char) :=
  (tokensAux (pyLower s) []).toFinset

/-- Model of `BidDataProcessor._calculate_similarity`: Jaccard coefficient of the
two word sets, `0` when either text or either word set is empty.
Python's float division `intersection / union` is modelled as the exact
rational (`mkRat`). -/
def calculate_similarity (t1 t2 : List Char) : ℚ :=
  if t1 = [] ∨ t2 = [] then 0
  else if wordSet t1 = ∅ ∨ wordSet t2 = ∅ then 0
  else if 0 < (wordSet t1 ∪ wordSet t2).card then
    mkRat ((wordSet t1 ∩ wordSet t2).card : Int) (wordSet t1 ∪ wordSet t2).card
  else 0

/-- The duplicate test `_is_duplicate` applies between one incoming
entry and one previously accepted entry: title similarity above `0.8`,
or a non-empty `source_url` equal to the accepted entry's.  The Python
float threshold `0.8` is the exact rational `4/5`. -/
def entryDup (e existing : Entry) : Bool :=
  decide (mkRat 4 5 < calculate_similarity e.title existing.title) ||
  (!e.source_url.isEmpty && decide (e.source_url = existing.source_url))

/-- Model of `BidDataProcessor._is_duplicate`: the incoming entry is compared
against every previously accepted entry. -/
def is_duplicate (e : Entry) (existing : List Entry) : Bool :=
  existing.any (entryDup e)

/-- Lines 32 and 35 of `data_processor.py`: the entry dict is given its
`relevance_score` and `keywords_matched`; every other key is left
untouched. -/
def attachScore (cfg : Config) (today : Int) (e : Entry) : Entry :=
  { e with relevance_score := calculate_relevance_score cfg today e
           keywords_matched := get_matched_keywords cfg e }

/-- The per-entry loop of `BidDataProcessor.process_entries`: skip
duplicates of already accepted entries, skip entries failing the keyword
filters, otherwise attach `relevance_score` and `keywords_matched` and
accept.  The accumulator holds accepted entries most recent first. -/
def processLoop (cfg : Config) (today : Int) : List Entry → List Entry → List Entry
  | acc, [] => acc.reverse
  | acc, e :: rest =>
    if is_duplicate e acc then processLoop cfg today acc rest
    else if !passes_filters cfg e then processLoop cfg today acc rest
    else processLoop cfg today (attachScore cfg today e :: acc) rest

/-- One step of a stable descending sort on `relevance_score`: the new
entry goes in front of the first already-placed entry whose score does
not exceed it (entries with equal score keep their original relative
order, as with Python's stable `sort(reverse=True)`). -/
def insertByScoreDesc (e : Entry) : List Entry → List Entry
  | [] => [e]
  | x :: xs =>
    if x.relevance_score ≤ e.relevance_score then e :: x :: xs
    else x :: insertByScoreDesc e xs

/-- Model of the sort call on line 44 (Python's stable sort with key
`relevance_score` and `reverse=True`): stable sort on descending score,
realised as stable insertion sort (which computes the same list as any
stable sort). -/
def sortByScoreDesc : List Entry → List Entry
  | [] => []
  | e :: rest => insertByScoreDesc e (sortByScoreDesc rest)

/-- Model of `BidDataProcessor.process_entries`: the loop above followed by the
stable sort on descending `relevance_score`. -/
def process_entries (cfg : Config) (today : Int) (entries : List Entry) : List Entry :=
  sortByScoreDesc (processLoop cfg today [] entries)

/-- The duplicate-removal loop of `process_entries` in isolation (the
Deduplicator stage: lines 23-25 of `data_processor.py`, keeping each
entry not flagged by `_is_duplicate` against those already kept). -/
def dedupLoop : List Entry → List Entry → List Entry
  | acc, [] => acc.reverse
  | acc, e :: rest =>
    if is_duplicate e acc then dedupLoop acc rest
    else dedupLoop (e :: acc) rest

/-- The Deduplicator stage applied to a batch. -/
def deduplicate (entries : List Entry) : List Entry :=
  dedupLoop [] entries

/-- The per-entry retention predicate of
`BidDataProcessor.clean_old_data`: a falsy `published_date` is kept, an
unparsable one is kept (the `except` branch), a parsed one is kept
exactly when it is on or after `today - retentionDays`. -/
def keepByRetention (today retentionDays : Int) (e : Entry) : Bool :=
  match e.published_date with
  | .missing => true
  | .invalid => true
  | .valid d => decide (today - retentionDays ≤ d)

/-- Model of `BidDataProcessor.clean_old_data`. -/
def clean_old_data (today retentionDays : Int) (entries : List Entry) : List Entry :=
  entries.filter (keepByRetention today retentionDays)

/-- Model of `BidDataProcessor.validate_entry`: the three required fields must be
truthy (non-empty) and the title at most 500 characters. -/
def validate_entry (e : Entry) : Bool :=
  !e.title.isEmpty && !e.organization.isEmpty && !e.source_url.isEmpty &&
    decide (e.title.length ≤ 500)

/-- Model of `BidDataProcessor.normalize_entry_data`: strip every string field,
then truncate title/organization/region/url/source_type (the source
applies no length cap to `description`); other fields are carried
over. -/
def normalize_entry_data (e : Entry) : Entry :=
  { title := (pyStrip e.title).take 500
    description := pyStrip e.description
    organization := (pyStrip e.organization).take 200
    region := (pyStrip e.region).take 100
    source_url := (pyStrip e.source_url).take 500
    source_type := (pyStrip e.source_type).take 50
    budget_amount := e.budget_amount
    published_date := e.published_date
    deadline_date := e.deadline_date
    relevance_score := e.relevance_score
    keywords_matched := e.keywords_matched }

/-- Model of `BidDataProcessor.filter_by_score`: entries whose score is at least
the threshold (inclusive `>=`). -/
def filter_by_score (entries : List Entry) (minScore : Int) : List Entry :=
  entries.filter fun e => decide (minScore ≤ e.relevance_score)

/-- Priority tier of a scored entry. -/
inductive Tier where
  | high : Tier
  | medium : Tier
  | low : Tier
deriving DecidableEq, Repr

/-- Tier assignment derived from `filter_by_score`'s inclusive `>=`
comparison as used by `get_high_priority_entries` and
`get_medium_priority_entries`: at or above the high threshold is `high`,
otherwise at or above the medium threshold is `medium`, otherwise
`low`. -/
def classify (highThreshold mediumThreshold score : Int) : Tier :=
  if highThreshold ≤ score then .high
  else if mediumThreshold ≤ score then .medium
  else .low

/-- Modelled from the spec: the default high score threshold (80).
`BidDataProcessor.get_high_priority_entries` reads
`settings.high_score_threshold`, which `config/settings.py` never
defines; the value 80 comes from the spec's default. -/
def defaultHighThreshold : Int := 80

/-- Modelled from the spec: the default medium score threshold (60).
`BidDataProcessor.get_medium_priority_entries` reads
`settings.medium_score_threshold`, which `config/settings.py` never
defines; the value 60 comes from the spec's default. -/
def defaultMediumThreshold : Int := 60

/-- The `max_entries_per_run` cap of `BidCollectionSystem._process_data`
(`raw_entries[:max]` applied only when the list is over the cap, keeping
collection order). -/
def cap_entries (maxEntries : Nat) (raw : List Entry) : List Entry :=
  if maxEntries < raw.length then raw.take maxEntries else raw

/-- Model of `BidCollectionSystem._process_data`: cap the raw list at
`max_entries_per_run`, run `process_entries`, then `clean_old_data`. -/
def process_data (cfg : Config) (today retentionDays : Int) (maxEntries : Nat)
    (raw : List Entry) : List Entry :=
  clean_old_data today retentionDays (process_entries cfg today (cap_entries maxEntries raw))

/-- Result of the save phase: `saved` is the list the caller keeps (the
original entry dicts), `inserted` the normalized records handed to the
storage collaborator's insert. -/
structure SaveResult where
  saved : List Entry
  inserted : List Entry
deriving DecidableEq, Repr

/-- Model of `BidCollectionSystem._save_to_database`: per entry, skip when
`validate_entry` fails, otherwise normalize, skip when the storage
collaborator reports a `(title, organization)` duplicate, otherwise
insert the normalized record and keep the original entry.  The storage
duplicate check is the collaborator parameter `dbDup`. -/
def save_to_database (dbDup : List Char → List Char → Bool) :
    List Entry → SaveResult
  | [] => ⟨[], []⟩
  | e :: rest =>
    if validate_entry e then
      if dbDup (normalize_entry_data e).title (normalize_entry_data e).organization then
        save_to_database dbDup rest
      else
        ⟨e :: (save_to_database dbDup rest).saved,
          normalize_entry_data e :: (save_to_database dbDup rest).inserted⟩
    else save_to_database dbDup rest

/-- Model of `BidCollectionSystem._collect_data` with the two adapter outcomes as
parameters: the government API call and the RSS call each either return
entries or raise.  An API failure lands in the outer `except`, which
returns the entries collected so far (none) — the RSS section is inside
the same `try` and is skipped.  After a successful API call the
wall-clock budget is checked; once exceeded the API entries are returned
without attempting RSS.  An RSS failure is caught by the inner `except`
and contributes nothing. -/
def collect_data (apiResult : Except Unit (List Entry)) (timeLimitExceeded : Bool)
    (rssResult : Except Unit (List Entry)) : List Entry :=
  match apiResult with
  | .error _ => []
  | .ok apiEntries =>
    if timeLimitExceeded then apiEntries
    else
      match rssResult with
      | .error _ => apiEntries
      | .ok rssEntries => apiEntries ++ rssEntries

/-! ## Concrete instances used by the claims -/

/-- The configuration of Scenario B: `コールセンター` plus one further
target keyword that the scenario entry does not match. -/
def scenarioBConfig : Config :=
  ⟨["コールセンター".toList, "データ入力".toList], []⟩

/-- The Scenario B listing: the keyword in the title, budget 6,000,000,
region `東京都`, no municipal marker in the organization, deadline 20
days after `today`. -/
def scenarioBEntry (today : Int) : Entry :=
  { Entry.empty with
    title := "コールセンター業務委託".toList
    budget_amount := some 6000000
    region := "東京都".toList
    organization := "国土交通省".toList
    deadline_date := .valid (today + 20) }

/-- An entry sitting exactly at the default high threshold. -/
def entryAt80 : Entry := { Entry.empty with relevance_score := 80 }

/-- An entry whose `published_date` did not parse. -/
def unparsableDateEntry : Entry := { Entry.empty with published_date := .invalid }

/-- An entry published on day 0. -/
def day0Entry : Entry := { Entry.empty with published_date := .valid 0 }

/-- A batch of two unrelated entries for the dedup witness. -/
def dedupWitnessA : Entry := { Entry.empty with title := ['a'] }

/-- Second entry of the dedup witness batch. -/
def dedupWitnessB : Entry := { Entry.empty with title := ['b'] }

/-- The five listings the healthy adapter returns in Scenario C. -/
def fiveListings : List Entry := List.replicate 5 Entry.empty

/-- An entry whose description has 2001 characters. -/
def overlongDescriptionEntry : Entry :=
  { Entry.empty with description := List.replicate 2001 'x' }

/-- A required-fields-complete entry whose title has 501 characters. -/
def overlongTitleEntry : Entry :=
  { Entry.empty with
    title := List.replicate 501 'x'
    organization := ['o']
    source_url := ['u'] }

/-- Config with the single target keyword `コールセンター`. -/
def c5Config : Config := ⟨["コールセンター".toList], []⟩

/-- A valid raw entry whose title carries surrounding whitespace. -/
def untrimmedEntry : Entry :=
  { Entry.empty with
    title := ' ' :: ("コールセンター".toList ++ [' '])
    organization := ['o']
    source_url := ['u'] }

/-- Config with the single target keyword `データ入力`. -/
def c9Config : Config := ⟨["データ入力".toList], []⟩

/-- A record with no organization (fails validation) but a matching
title and a `source_url`. -/
def invalidNoOrgEntry : Entry :=
  { Entry.empty with
    title := "データ入力業務".toList
    source_url := ['u'] }

/-- A fully valid record sharing `source_url` with `invalidNoOrgEntry`. -/
def validMunicipalEntry : Entry :=
  { Entry.empty with
    title := "ほかの業務データ入力".toList
    organization := "○○市".toList
    source_url := ['u'] }

/-- Config whose single target keyword contains a space. -/
def spanningConfig : Config := ⟨[['a', ' ', 'b']], []⟩

/-- Entry whose title is `a` and description `b`: the keyword `a b`
occurs only across the title/description join. -/
def spanningEntry : Entry :=
  { Entry.empty with
    title := ['a']
    description := ['b'] }

/-! ## Helper lemmas -/

lemma keywordScore_foldl_le (e : Entry) :
    ∀ (l : List (List Char)) (s : Int),
      s ≤ l.foldl
        (fun s kw =>
          if containsSub kw (filterText e) then
            if containsSub kw (pyLower e.title) then s + 30 else s + 10
          else s) s := by
  intro l
  induction l with
  | nil => intro s; exact le_refl s
  | cons kw rest ih =>
    intro s
    refine le_trans ?_ (ih _)
    dsimp only
    repeat' split
    all_goals omega

lemma keywordScore_nonneg (cfg : Config) (e : Entry) : 0 ≤ keywordScore cfg e :=
  keywordScore_foldl_le e cfg.targetLower 0

lemma budgetScore_bounds (e : Entry) : 0 ≤ budgetScore e ∧ budgetScore e ≤ 20 := by
  unfold budgetScore
  rcases e.budget_amount with _ | b <;> dsimp only <;> refine ⟨?_, ?_⟩ <;>
    (repeat' split) <;> omega

lemma regionScore_bounds (e : Entry) : 0 ≤ regionScore e ∧ regionScore e ≤ 15 := by
  unfold regionScore
  refine ⟨?_, ?_⟩ <;> (repeat' split) <;> omega

lemma orgScore_bounds (e : Entry) : 0 ≤ orgScore e ∧ orgScore e ≤ 5 := by
  unfold orgScore
  refine ⟨?_, ?_⟩ <;> (repeat' split) <;> omega

lemma deadlineScore_bounds (today : Int) (e : Entry) :
    0 ≤ deadlineScore today e ∧ deadlineScore today e ≤ 10 := by
  unfold deadlineScore
  rcases e.deadline_date with _ | _ | d <;> dsimp only <;> refine ⟨?_, ?_⟩ <;>
    (repeat' split) <;> omega

/-! ## C1 -/

/-- C1: the Scenario B listing (title keyword `コールセンター`, budget
6,000,000, region `東京都`, no municipal marker, deadline 20 days out)
scores 30 + 15 + 15 + 10 = 70, and under the default thresholds the
classifier puts a score of 70 in tier `medium`. -/
theorem C1_scenarioB_score (today : Int) :
    calculate_relevance_score scenarioBConfig today (scenarioBEntry today) = 70 ∧
    classify defaultHighThreshold defaultMediumThreshold
      (calculate_relevance_score scenarioBConfig today (scenarioBEntry today)) =
        Tier.medium := by
  have hk : keywordScore scenarioBConfig (scenarioBEntry today) = 30 := rfl
  have hb : budgetScore (scenarioBEntry today) = 15 := rfl
  have hr : regionScore (scenarioBEntry today) = 15 := rfl
  have ho : orgScore (scenarioBEntry today) = 0 := rfl
  have hd : deadlineScore today (scenarioBEntry today) = 10 := by
    show (if 14 ≤ today + 20 - today then (10 : Int)
      else if 7 ≤ today + 20 - today then 5 else 0) = 10
    have h20 : today + 20 - today = 20 := by ring
    rw [h20]
    norm_num
  have hscore : calculate_relevance_score scenarioBConfig today (scenarioBEntry today) = 70 := by
    unfold calculate_relevance_score
    rw [hk, hb, hr, ho, hd]
    decide
  refine ⟨hscore, ?_⟩
  rw [hscore]
  decide

/-! ## C2 -/

/-- C2: for every keyword configuration, reference day and entry, the
relevance score is between 0 and 100: every contributing term is
non-negative and the sum is clamped at 100. -/
theorem C2_score_clamp (cfg : Config) (today : Int) (e : Entry) :
    0 ≤ calculate_relevance_score cfg today e ∧
    calculate_relevance_score cfg today e ≤ 100 := by
  unfold calculate_relevance_score
  constructor
  · refine le_min ?_ (by norm_num)
    have h1 := keywordScore_nonneg cfg e
    have h2 := (budgetScore_bounds e).1
    have h3 := (regionScore_bounds e).1
    have h4 := (orgScore_bounds e).1
    have h5 := (deadlineScore_bounds today e).1
    omega
  · exact min_le_right _ _

/-! ## C7 -/

/-- C7: an entry whose relevance score is exactly the default high
threshold 80 is selected by `filter_by_score` at that threshold
(inclusive lower bound) and classified `high`, not `medium`. -/
theorem C7_threshold_inclusive (entries : List Entry) (e : Entry)
    (he : e ∈ entries) (hs : e.relevance_score = 80) :
    e ∈ filter_by_score entries defaultHighThreshold ∧
    classify defaultHighThreshold defaultMediumThreshold e.relevance_score = Tier.high ∧
    classify defaultHighThreshold defaultMediumThreshold e.relevance_score ≠ Tier.medium := by
  refine ⟨?_, ?_, ?_⟩
  · refine List.mem_filter.mpr ⟨he, ?_⟩
    rw [hs]
    decide
  · rw [hs]; decide
  · rw [hs]; decide

theorem C7_threshold_inclusive_witness :
    entryAt80 ∈ filter_by_score [entryAt80] defaultHighThreshold ∧
    classify defaultHighThreshold defaultMediumThreshold entryAt80.relevance_score = Tier.high ∧
    classify defaultHighThreshold defaultMediumThreshold entryAt80.relevance_score ≠ Tier.medium :=
  C7_threshold_inclusive [entryAt80] entryAt80 (List.mem_singleton.mpr rfl) rfl

/-! ## C8 -/

/-- C8: the Retention Filter drops an entry of the batch exactly when
its `published_date` parsed to a day strictly older than
`today - retentionDays`; in particular an unparsable `published_date`
is always retained (fail open). -/
theorem C8_retention_fail_open (today retentionDays : Int) (entries : List Entry)
    (e : Entry) (he : e ∈ entries) :
    (e ∉ clean_old_data today retentionDays entries ↔
      ∃ d, e.published_date = PyDate.valid d ∧ d < today - retentionDays) ∧
    (e.published_date = PyDate.invalid → e ∈ clean_old_data today retentionDays entries) := by
  have hmem : e ∈ clean_old_data today retentionDays entries ↔
      keepByRetention today retentionDays e = true := by
    unfold clean_old_data
    rw [List.mem_filter]
    exact ⟨fun h => h.2, fun h => ⟨he, h⟩⟩
  constructor
  · rw [hmem]
    unfold keepByRetention
    rcases hp : e.published_date with _ | _ | d
    · simp
    · simp
    · simp only [decide_eq_true_eq]
      constructor
      · intro h
        exact ⟨d, rfl, by omega⟩
      · rintro ⟨d', hd', hlt⟩ hle
        cases hd'
        omega
  · intro hinv
    rw [hmem]
    unfold keepByRetention
    rw [hinv]

theorem C8_retention_fail_open_witness :
    unparsableDateEntry ∈ clean_old_data 100 10 [unparsableDateEntry, day0Entry] ∧
    day0Entry ∉ clean_old_data 100 10 [unparsableDateEntry, day0Entry] :=
  ⟨(C8_retention_fail_open 100 10 [unparsableDateEntry, day0Entry] unparsableDateEntry
      (by decide)).2 rfl,
    (C8_retention_fail_open 100 10 [unparsableDateEntry, day0Entry] day0Entry
      (by decide)).1.mpr ⟨0, rfl, by norm_num⟩⟩

/-! ## C4 -/

lemma is_duplicate_eq_false {e : Entry} {acc : List Entry}
    (h : ∀ a ∈ acc, entryDup e a = false) : is_duplicate e acc = false := by
  unfold is_duplicate
  rw [List.any_eq_false]
  intro a ha
  rw [h a ha]
  exact Bool.false_ne_true

lemma dedupLoop_of_pairwise :
    ∀ (l acc : List Entry),
      (∀ e ∈ l, ∀ a ∈ acc, entryDup e a = false) →
      List.Pairwise (fun a b => entryDup b a = false) l →
      dedupLoop acc l = acc.reverse ++ l := by
  intro l
  induction l with
  | nil =>
    intro acc _ _
    simp [dedupLoop]
  | cons e rest ih =>
    intro acc h1 h2
    have hdup : is_duplicate e acc = false :=
      is_duplicate_eq_false (h1 e (List.mem_cons_self e rest))
    have hcons := List.pairwise_cons.mp h2
    unfold dedupLoop
    rw [hdup]
    simp only [Bool.false_eq_true, if_false]
    rw [ih (e :: acc) ?_ hcons.2]
    · simp [List.append_assoc]
    · intro e' he' a ha
      rcases List.mem_cons.mp ha with rfl | ha'
      · exact hcons.1 e' he'
      · exact h1 e' (List.mem_cons_of_mem e he') a ha'

lemma dedupLoop_pairwise :
    ∀ (l acc : List Entry),
      List.Pairwise (fun a b => entryDup a b = false) acc →
      List.Pairwise (fun a b => entryDup b a = false) (dedupLoop acc l) := by
  intro l
  induction l with
  | nil =>
    intro acc hacc
    unfold dedupLoop
    exact List.pairwise_reverse.mpr hacc
  | cons e rest ih =>
    intro acc hacc
    unfold dedupLoop
    by_cases h : is_duplicate e acc = true
    · rw [h]
      simp only [if_true]
      exact ih acc hacc
    · have hfalse : is_duplicate e acc = false := Bool.eq_false_iff.mpr h
      rw [hfalse]
      simp only [Bool.false_eq_true, if_false]
      refine ih (e :: acc) (List.pairwise_cons.mpr ⟨?_, hacc⟩)
      intro b hb
      have := List.any_eq_false.mp (by unfold is_duplicate at hfalse; exact hfalse) b hb
      exact Bool.eq_false_iff.mpr this

/-- C4: deduplication is idempotent — running the Deduplicator on its
own output removes nothing further; and a batch in which no two entries
are related by the duplicate test (title similarity above 0.8 or equal
non-empty `source_url`) passes through unchanged. -/
theorem C4_dedup_idempotent (l : List Entry) :
    deduplicate (deduplicate l) = deduplicate l ∧
    (List.Pairwise (fun a b => entryDup a b = false ∧ entryDup b a = false) l →
      deduplicate l = l) := by
  constructor
  · have hp := dedupLoop_pairwise l [] List.Pairwise.nil
    have h := dedupLoop_of_pairwise (dedupLoop [] l) []
      (by intro e _ a ha; exact absurd ha (List.not_mem_nil a)) hp
    simpa [deduplicate] using h
  · intro hl
    have h := dedupLoop_of_pairwise l []
      (by intro e _ a ha; exact absurd ha (List.not_mem_nil a))
      (hl.imp fun h => h.2)
    simpa [deduplicate] using h

theorem C4_dedup_idempotent_witness :
    deduplicate (deduplicate [dedupWitnessA, dedupWitnessB]) =
      deduplicate [dedupWitnessA, dedupWitnessB] ∧
    deduplicate [dedupWitnessA, dedupWitnessB] = [dedupWitnessA, dedupWitnessB] :=
  ⟨(C4_dedup_idempotent [dedupWitnessA, dedupWitnessB]).1,
    (C4_dedup_idempotent [dedupWitnessA, dedupWitnessB]).2 (by decide)⟩

/-! ## C6 -/

/-- C6 counterexample: when the government-API adapter (the first one)
throws and the RSS adapter would return 5 listings, collection returns
no listings at all — the RSS adapter sits inside the same `try` block
and is never reached — contradicting the claim that the run continues
to the next adapter and processes the 5 listings. -/
theorem C6_counterexample :
    collect_data (Except.error ()) false (Except.ok fiveListings) = [] ∧
    fiveListings.length = 5 :=
  ⟨rfl, rfl⟩

/-- C6 (amended): an RSS-adapter failure is caught and the run keeps
the API's listings; but a government-API failure yields only what was
collected before it (nothing), skipping the RSS adapter; with both
adapters healthy the results are concatenated. -/
theorem C6_amended (api rss : List Entry) (rssR : Except Unit (List Entry)) (b : Bool) :
    collect_data (Except.ok api) false (Except.error ()) = api ∧
    collect_data (Except.error ()) b rssR = [] ∧
    collect_data (Except.ok api) false (Except.ok rss) = api ++ rss :=
  ⟨rfl, rfl, rfl⟩

/-! ## C3 -/

lemma dropWhile_ws_replicate_x (n : Nat) :
    List.dropWhile Char.isWhitespace (List.replicate (n + 1) 'x') =
      List.replicate (n + 1) 'x' := by
  have hx : Char.isWhitespace 'x' = false := by decide
  simp [List.replicate_succ, List.dropWhile_cons, hx]

lemma pyStrip_replicate_x (n : Nat) :
    pyStrip (List.replicate (n + 1) 'x') = List.replicate (n + 1) 'x' := by
  unfold pyStrip
  rw [dropWhile_ws_replicate_x, List.reverse_replicate, dropWhile_ws_replicate_x,
    List.reverse_replicate]

lemma normalize_description (e : Entry) :
    (normalize_entry_data e).description = pyStrip e.description := rfl

lemma validate_entry_eq (e : Entry) :
    validate_entry e =
      (!e.title.isEmpty && !e.organization.isEmpty && !e.source_url.isEmpty &&
        decide (e.title.length ≤ 500)) := rfl

lemma overlongTitle_length : overlongTitleEntry.title.length = 501 := by
  rw [show overlongTitleEntry.title = List.replicate 501 'x' from rfl,
    List.length_replicate]

/-- C3 counterexample: the normalizer leaves a 2001-character
description at 2001 characters (no truncation to 2000), and a
501-character title makes `validate_entry` reject the record outright
instead of truncating it. -/
theorem C3_counterexample :
    2000 < (normalize_entry_data overlongDescriptionEntry).description.length ∧
    validate_entry overlongTitleEntry = false := by
  constructor
  · rw [normalize_description,
      show overlongDescriptionEntry.description = List.replicate 2001 'x' from rfl,
      show (2001 : Nat) = 2000 + 1 from rfl, pyStrip_replicate_x,
      List.length_replicate]
    norm_num
  · rw [validate_entry_eq,
      decide_eq_false (by rw [overlongTitle_length]; omega :
        ¬overlongTitleEntry.title.length ≤ 500)]
    simp

/-- C3 (amended): `normalize_entry_data` strips every string field and
truncates title to 500, organization to 200, region to 100, url to 500
and source_type to 50, but applies no length cap to description (it is
only stripped); normalization itself never rejects a record, but
`validate_entry`, which the save phase runs before normalizing, rejects
any record whose title exceeds 500 characters. -/
theorem C3_amended (e : Entry) :
    (normalize_entry_data e).title.length ≤ 500 ∧
    (normalize_entry_data e).organization.length ≤ 200 ∧
    (normalize_entry_data e).region.length ≤ 100 ∧
    (normalize_entry_data e).source_url.length ≤ 500 ∧
    (normalize_entry_data e).source_type.length ≤ 50 ∧
    (normalize_entry_data e).description = pyStrip e.description ∧
    (500 < e.title.length → validate_entry e = false) := by
  refine ⟨?_, ?_, ?_, ?_, ?_, rfl, ?_⟩
  · rw [show (normalize_entry_data e).title = (pyStrip e.title).take 500 from rfl,
      List.length_take]
    exact min_le_left _ _
  · rw [show (normalize_entry_data e).organization = (pyStrip e.organization).take 200 from
      rfl, List.length_take]
    exact min_le_left _ _
  · rw [show (normalize_entry_data e).region = (pyStrip e.region).take 100 from rfl,
      List.length_take]
    exact min_le_left _ _
  · rw [show (normalize_entry_data e).source_url = (pyStrip e.source_url).take 500 from
      rfl, List.length_take]
    exact min_le_left _ _
  · rw [show (normalize_entry_data e).source_type = (pyStrip e.source_type).take 50 from
      rfl, List.length_take]
    exact min_le_left _ _
  · intro h
    unfold validate_entry
    rw [decide_eq_false (by omega : ¬e.title.length ≤ 500)]
    simp

theorem C3_amended_witness :
    validate_entry overlongTitleEntry = false ∧
    (normalize_entry_data Entry.empty).title.length ≤ 500 :=
  ⟨(C3_amended overlongTitleEntry).2.2.2.2.2.2
      (by rw [overlongTitle_length]; norm_num),
    (C3_amended Entry.empty).1⟩

/-! ## Membership lemmas for the processing pipeline -/

lemma mem_insertByScoreDesc {a e : Entry} {l : List Entry} :
    a ∈ insertByScoreDesc e l ↔ a = e ∨ a ∈ l := by
  induction l with
  | nil => simp [insertByScoreDesc]
  | cons x xs ih =>
    unfold insertByScoreDesc
    split
    · simp [List.mem_cons]
    · rw [List.mem_cons, ih, List.mem_cons]
      tauto

lemma mem_sortByScoreDesc {a : Entry} {l : List Entry} :
    a ∈ sortByScoreDesc l ↔ a ∈ l := by
  induction l with
  | nil => simp [sortByScoreDesc]
  | cons e rest ih =>
    unfold sortByScoreDesc
    rw [mem_insertByScoreDesc, ih, List.mem_cons]

lemma mem_processLoop {cfg : Config} {today : Int} :
    ∀ (l acc : List Entry) (x : Entry), x ∈ processLoop cfg today acc l →
      x ∈ acc ∨ ∃ e ∈ l, x = attachScore cfg today e := by
  intro l
  induction l with
  | nil =>
    intro acc x hx
    left
    unfold processLoop at hx
    exact List.mem_reverse.mp hx
  | cons e rest ih =>
    intro acc x hx
    unfold processLoop at hx
    split at hx
    · rcases ih acc x hx with h | ⟨e', he', hx'⟩
      · exact Or.inl h
      · exact Or.inr ⟨e', List.mem_cons_of_mem e he', hx'⟩
    · split at hx
      · rcases ih acc x hx with h | ⟨e', he', hx'⟩
        · exact Or.inl h
        · exact Or.inr ⟨e', List.mem_cons_of_mem e he', hx'⟩
      · rcases ih _ x hx with h | ⟨e', he', hx'⟩
        · rcases List.mem_cons.mp h with rfl | h'
          · exact Or.inr ⟨e, List.mem_cons_self e rest, rfl⟩
          · exact Or.inl h'
        · exact Or.inr ⟨e', List.mem_cons_of_mem e he', hx'⟩

lemma passes_filters_attachScore (cfg : Config) (today : Int) (e : Entry) :
    passes_filters cfg (attachScore cfg today e) = passes_filters cfg e := rfl

lemma processLoop_filters {cfg : Config} {today : Int} :
    ∀ (l acc : List Entry), (∀ a ∈ acc, passes_filters cfg a = true) →
      ∀ x ∈ processLoop cfg today acc l, passes_filters cfg x = true := by
  intro l
  induction l with
  | nil =>
    intro acc hacc x hx
    unfold processLoop at hx
    exact hacc x (List.mem_reverse.mp hx)
  | cons e rest ih =>
    intro acc hacc x hx
    unfold processLoop at hx
    split at hx
    · exact ih acc hacc x hx
    · split at hx
      · exact ih acc hacc x hx
      · rename_i hdup hpass
        refine ih _ ?_ x hx
        intro a ha
        rcases List.mem_cons.mp ha with rfl | ha'
        · rw [passes_filters_attachScore]
          revert hpass
          cases passes_filters cfg e <;> simp
        · exact hacc a ha'

lemma cap_entries_subset (maxEntries : Nat) (raw : List Entry) :
    cap_entries maxEntries raw ⊆ raw := by
  unfold cap_entries
  split
  · exact List.take_subset _ _
  · exact List.Subset.refl raw

/-! ## C5 -/

/-- C5 counterexample: a record whose title has surrounding whitespace
passes through the whole Processing phase (Deduplicator, Scorer,
Retention Filter) with the title still untrimmed, so the Deduplicator
cannot have been comparing normalized records — normalization has not
happened by then. -/
theorem C5_counterexample :
    (process_data c5Config 0 30 100 [untrimmedEntry]).map (fun e => e.title) =
      [untrimmedEntry.title] ∧
    pyStrip untrimmedEntry.title ≠ untrimmedEntry.title := by
  decide

/-- C5 (amended): the Processing phase runs cap → Deduplicator/keyword
filter/Scorer (interleaved, over the raw records) → sort → Retention
Filter, and leaves every source field of a surviving record exactly as
collected; validation and normalization happen afterwards in the save
phase, so only the storage collaborator receives normalized records
(of validated entries). -/
theorem C5_normalization_after_processing :
    (∀ (cfg : Config) (today retentionDays : Int) (maxEntries : Nat)
      (l : List Entry) (x : Entry), x ∈ process_data cfg today retentionDays maxEntries l →
        ∃ e ∈ l, x = attachScore cfg today e) ∧
    (∀ (cfg : Config) (today : Int) (e : Entry),
      (attachScore cfg today e).title = e.title ∧
      (attachScore cfg today e).description = e.description ∧
      (attachScore cfg today e).organization = e.organization ∧
      (attachScore cfg today e).region = e.region ∧
      (attachScore cfg today e).source_url = e.source_url ∧
      (attachScore cfg today e).source_type = e.source_type) ∧
    (∀ (dbDup : List Char → List Char → Bool) (l : List Entry) (x : Entry),
      x ∈ (save_to_database dbDup l).inserted →
        ∃ e ∈ l, validate_entry e = true ∧ x = normalize_entry_data e) := by
  refine ⟨?_, ?_, ?_⟩
  · intro cfg today retentionDays maxEntries l x hx
    unfold process_data clean_old_data at hx
    have hx1 : x ∈ process_entries cfg today (cap_entries maxEntries l) :=
      (List.mem_filter.mp hx).1
    unfold process_entries at hx1
    have hx2 := mem_sortByScoreDesc.mp hx1
    rcases mem_processLoop (cap_entries maxEntries l) [] x hx2 with h | ⟨e, he, hx'⟩
    · exact absurd h (List.not_mem_nil x)
    · exact ⟨e, cap_entries_subset maxEntries l he, hx'⟩
  · intro cfg today e
    exact ⟨rfl, rfl, rfl, rfl, rfl, rfl⟩
  · intro dbDup l
    induction l with
    | nil =>
      intro x hx
      exact absurd hx (List.not_mem_nil x)
    | cons e rest ih =>
      intro x hx
      unfold save_to_database at hx
      split at hx
      · rename_i hv
        split at hx
        · rcases ih x hx with ⟨e', he', hv', hx'⟩
          exact ⟨e', List.mem_cons_of_mem e he', hv', hx'⟩
        · rcases List.mem_cons.mp hx with rfl | hx'
          · exact ⟨e, List.mem_cons_self e rest, hv, rfl⟩
          · rcases ih x hx' with ⟨e', he', hv', hx''⟩
            exact ⟨e', List.mem_cons_of_mem e he', hv', hx''⟩
      · rcases ih x hx with ⟨e', he', hv', hx'⟩
        exact ⟨e', List.mem_cons_of_mem e he', hv', hx'⟩

theorem C5_normalization_after_processing_witness :
    ∃ e ∈ [untrimmedEntry],
      attachScore c5Config 0 untrimmedEntry = attachScore c5Config 0 e :=
  C5_normalization_after_processing.1 c5Config 0 30 100 [untrimmedEntry]
    (attachScore c5Config 0 untrimmedEntry) (by decide)

/-! ## C9 -/

/-- C9 counterexample: a record with no `organization` fails validation,
yet it flows through `process_entries` — it is compared by the
Deduplicator (its shared `source_url` even eliminates a later valid
record) and survives as the sole processed entry. -/
theorem C9_counterexample :
    validate_entry invalidNoOrgEntry = false ∧
    (process_entries c9Config 0 [invalidNoOrgEntry, validMunicipalEntry]).map
      (fun e => e.title) = [invalidNoOrgEntry.title] ∧
    is_duplicate validMunicipalEntry [attachScore c9Config 0 invalidNoOrgEntry] = true := by
  decide

/-- C9 (amended): a record missing a required field is skipped in the
save phase — the save loop behaves exactly as if the record were absent,
so the run continues with the remaining records — and nothing that
reaches the caller's saved list is invalid; the in-run Deduplicator,
however, does see such records (they are only filtered at save time). -/
theorem C9_invalid_never_saved :
    (∀ (dbDup : List Char → List Char → Bool) (pre post : List Entry) (e : Entry),
      validate_entry e = false →
        save_to_database dbDup (pre ++ e :: post) = save_to_database dbDup (pre ++ post)) ∧
    (∀ (dbDup : List Char → List Char → Bool) (l : List Entry) (x : Entry),
      x ∈ (save_to_database dbDup l).saved → validate_entry x = true) := by
  constructor
  · intro dbDup pre post e hval
    induction pre with
    | nil =>
      simp only [List.nil_append]
      conv_lhs => unfold save_to_database
      rw [hval]
      simp
    | cons p ps ih =>
      simp only [List.cons_append]
      conv_lhs => unfold save_to_database
      conv_rhs => unfold save_to_database
      rw [ih]
  · intro dbDup l
    induction l with
    | nil =>
      intro x hx
      exact absurd hx (List.not_mem_nil x)
    | cons e rest ih =>
      intro x hx
      unfold save_to_database at hx
      split at hx
      · rename_i hv
        split at hx
        · exact ih x hx
        · rcases List.mem_cons.mp hx with rfl | hx'
          · exact hv
          · exact ih x hx'
      · exact ih x hx

theorem C9_invalid_never_saved_witness :
    save_to_database (fun _ _ => false)
        ([] ++ invalidNoOrgEntry :: [validMunicipalEntry]) =
      save_to_database (fun _ _ => false) ([] ++ [validMunicipalEntry]) :=
  C9_invalid_never_saved.1 (fun _ _ => false) [] [validMunicipalEntry]
    invalidNoOrgEntry (by decide)

/-! ## C10 -/

/-- C10 counterexample: with the single target keyword `a b`, the entry
with title `a` and description `b` survives `process_entries` (the
keyword matches across the space join of the two fields), although the
keyword is a substring of neither the title nor the description. -/
theorem C10_counterexample :
    attachScore spanningConfig 0 spanningEntry ∈
      process_entries spanningConfig 0 [spanningEntry] ∧
    containsSub (pyLower ['a', ' ', 'b'])
      (pyLower (attachScore spanningConfig 0 spanningEntry).title) = false ∧
    containsSub (pyLower ['a', ' ', 'b'])
      (pyLower (attachScore spanningConfig 0 spanningEntry).description) = false := by
  decide

/-- C10 (amended): every entry that `process_entries` outputs contains
some configured target keyword as a case-insensitive substring of the
combined string `title + ' ' + description`, and contains no configured
exclude keyword there; entries matching no target keyword or matching an
exclude keyword are dropped from the run entirely. -/
theorem C10_keyword_gate (cfg : Config) (today : Int) (l : List Entry) (e : Entry)
    (he : e ∈ process_entries cfg today l) :
    (∃ kw ∈ cfg.target_keywords, containsSub (pyLower kw) (filterText e) = true) ∧
    (∀ kw ∈ cfg.exclude_keywords, containsSub (pyLower kw) (filterText e) = false) := by
  unfold process_entries at he
  have hp : passes_filters cfg e = true :=
    processLoop_filters l []
      (by intro a ha; exact absurd ha (List.not_mem_nil a)) e
      (mem_sortByScoreDesc.mp he)
  unfold passes_filters at hp
  rw [Bool.and_eq_true] at hp
  obtain ⟨hexc, htar⟩ := hp
  constructor
  · rw [List.any_eq_true] at htar
    obtain ⟨kw, hkwmem, hkw⟩ := htar
    obtain ⟨kw0, hkw0, rfl⟩ := List.mem_map.mp hkwmem
    exact ⟨kw0, hkw0, hkw⟩
  · intro kw hkw
    rw [List.all_eq_true] at hexc
    have h := hexc (pyLower kw) (List.mem_map_of_mem pyLower hkw)
    simpa using h

theorem C10_keyword_gate_witness :
    (∃ kw ∈ c5Config.target_keywords,
      containsSub (pyLower kw) (filterText (attachScore c5Config 0 untrimmedEntry)) = true) ∧
    (∀ kw ∈ c5Config.exclude_keywords,
      containsSub (pyLower kw) (filterText (attachScore c5Config 0 untrimmedEntry)) = false) :=
  C10_keyword_gate c5Config 0 [untrimmedEntry] (attachScore c5Config 0 untrimmedEntry)
    (by decide)
